import Mathlib

/-!
Verification development for the db-query plugin (safety classifier,
configuration resolution, connection registry, backend driver row-capping,
and result formatting).  JavaScript strings are modelled as `List Char`
(one `Char` per UTF-16 code unit; all inputs of interest are ASCII), and
each embedded function mirrors one function of the TypeScript source.
-/

namespace DbQuery

/-- Characters removed by `String.prototype.trim` (ASCII forms). -/
def isJsSpace (c : Char) : Bool :=
  c == ' ' || c == '\t' || c == '\n' || c == '\r' || c == '\x0b' || c == '\x0c'

/-- Embeds `s.trim()` on the character list. -/
def trimChars (l : List Char) : List Char :=
  ((l.dropWhile isJsSpace).reverse.dropWhile isJsSpace).reverse

/-- Embeds `query.trim()`. -/
def jsTrim (s : String) : String := ⟨trimChars s.data⟩

/-- Embeds `s.includes(";")`-style membership of a single character. -/
def jsIncludesChar (s : String) (c : Char) : Bool := s.data.contains c

/-- Embeds `trimmed.replace(/;\s*$/, "")` applied to an already-trimmed string:
the regex matches exactly one final `;` (a trimmed string has no trailing
whitespace), so it drops the last character when that character is `;`. -/
def stripTrailingSemicolon (s : String) : String :=
  if s.data.getLast? = some ';' then ⟨s.data.dropLast⟩ else s

/-- Scanner for the tail of a single-quoted (resp. double-quoted) region,
embedding the JS regex `/'(?:[^'\\]|\\.)*'/` (resp. with `"`): after an
opening quote the match runs to the next unescaped quote, a backslash
escaping the following character; `.` does not match a line terminator, so
a backslash directly before a newline makes the match at this opening
fail, which the regex engine reports as no match here (`none`). Returns
the remainder after the closing quote on success. -/
def findClose (q : Char) : List Char → Option (List Char)
  | [] => none
  | c :: rest =>
    if c = q then some rest
    else if c = '\\' then
      match rest with
      | [] => none
      | c' :: rest' => if c' = '\n' || c' = '\r' then none else findClose q rest'
    else findClose q rest

/-- One global-replace pass removing quoted regions delimited by `q`
(`sql.replace(/'(?:[^'\\]|\\.)*'/g, "")` and the double-quote analogue):
at each quote the engine attempts a match; on success the matched region
is dropped and scanning resumes after it, on failure the quote character
is kept and scanning resumes at the next character.  Structured on fuel
(initially the list length, which always suffices) so that it evaluates
in the kernel. -/
def stripQuotedAux (q : Char) : Nat → List Char → List Char
  | 0, l => l
  | _ + 1, [] => []
  | fuel + 1, c :: rest =>
    if c = q then
      match findClose q rest with
      | some rest' => stripQuotedAux q fuel rest'
      | none => c :: stripQuotedAux q fuel rest
    else c :: stripQuotedAux q fuel rest

def stripQuoted (q : Char) (l : List Char) : List Char :=
  stripQuotedAux q l.length l

/-- Remainder after the first `*/` in the list, if any (the lazy body of
`/\/\*[\s\S]*?\*\//`). -/
def findBlockClose : List Char → Option (List Char)
  | [] => none
  | '*' :: '/' :: rest => some rest
  | _ :: rest => findBlockClose rest

/-- The block-comment pass `sql.replace(/\/\*[\s\S]*?\*\//g, "")`: each `/*` opens a block
comment running to the nearest `*/`; an unterminated `/*` is left in
place. -/
def stripBlockCommentsAux : Nat → List Char → List Char
  | 0, l => l
  | _ + 1, [] => []
  | fuel + 1, c :: rest =>
    match c, rest with
    | '/', '*' :: rest' =>
      match findBlockClose rest' with
      | some rest'' => stripBlockCommentsAux fuel rest''
      | none => c :: stripBlockCommentsAux fuel rest
    | _, _ => c :: stripBlockCommentsAux fuel rest

def stripBlockComments (l : List Char) : List Char :=
  stripBlockCommentsAux l.length l

/-- Remainder from the first newline on (the newline itself is kept,
since `--[^\n]*` stops before it). -/
def dropToNewline : List Char → List Char
  | [] => []
  | '\n' :: rest => '\n' :: rest
  | _ :: rest => dropToNewline rest

/-- The line-comment pass (regex: two hyphens then `[^\n]*`, replaced
globally by the empty string): `--` begins a line comment removed up to
(not including) the next newline or the end of input. -/
def stripLineCommentsAux : Nat → List Char → List Char
  | 0, l => l
  | _ + 1, [] => []
  | fuel + 1, c :: rest =>
    match c, rest with
    | '-', '-' :: rest' => stripLineCommentsAux fuel (dropToNewline rest')
    | _, _ => c :: stripLineCommentsAux fuel rest

def stripLineComments (l : List Char) : List Char :=
  stripLineCommentsAux l.length l

/-- Embeds `stripLiteralsAndComments` from the safety module: the four
global-replace passes applied in source order (single-quoted strings,
double-quoted identifiers, block comments, line comments). -/
def stripLiteralsAndComments (sql : String) : String :=
  ⟨stripLineComments (stripBlockComments (stripQuoted '"' (stripQuoted '\'' sql.data)))⟩

/-- JS `\w`: ASCII letters, digits and underscore. -/
def isWordChar (c : Char) : Bool := c.isAlphanum || c == '_'

def upperChars (l : List Char) : List Char := l.map Char.toUpper

/-- The characters `kw` occur at offset `i` of `text`. -/
def occursAt (text kw : List Char) (i : Nat) : Bool :=
  decide ((text.drop i).take kw.length = kw)

/-- JS `\b` immediately before offset `i`. -/
def wordBoundaryBefore (text : List Char) (i : Nat) : Bool :=
  match i with
  | 0 => true
  | j + 1 => !(isWordChar (text.getD j ' '))

/-- JS `\b` immediately after offset `j`. -/
def wordBoundaryAfter (text : List Char) (j : Nat) : Bool :=
  match text.drop j with
  | [] => true
  | c :: _ => !(isWordChar c)

/-- Embeds `new RegExp("\\b" + keyword + "\\b", "i").test(s)`: the keyword
occurs in `s` as a whole word, case-insensitively. -/
def containsWordCI (kw : String) (s : String) : Bool :=
  let t := upperChars s.data
  let k := upperChars kw.data
  (List.range (t.length + 1)).any fun i =>
    occursAt t k i && wordBoundaryBefore t i && wordBoundaryAfter t (i + k.length)

def MUTATION_KEYWORDS : List String :=
  ["INSERT", "UPDATE", "DELETE", "DROP", "ALTER",
   "TRUNCATE", "CREATE", "REPLACE", "MERGE", "GRANT", "REVOKE"]

structure SafetyResult where
  allowed : Bool
  reason : Option String
  deriving DecidableEq, Repr

/-- The denial message produced when `keyword` matches. -/
def blockedMsg (keyword : String) : String :=
  keyword ++ " blocked — mutations are disabled for this connection. Set allowMutations: true in config or per-connection readOnly: false to allow writes."

/-- Embeds `validateQuery` from the safety module (the whole-body scanning
version): mutations allowed short-circuits; then the multi-statement
check on the trimmed text with one trailing `;` stripped; then the first
mutation keyword found as a whole word in the stripped text is denied. -/
def validateQuery (query : String) (allowMutations : Bool) : SafetyResult :=
  if allowMutations then { allowed := true, reason := none }
  else if jsIncludesChar (stripTrailingSemicolon (jsTrim query)) ';' then
    { allowed := false, reason := some "multiple statements not allowed" }
  else
    match MUTATION_KEYWORDS.find?
        (fun kw => containsWordCI kw (stripLiteralsAndComments (jsTrim query))) with
    | some kw => { allowed := false, reason := some (blockedMsg kw) }
    | none => { allowed := true, reason := none }

/-- Embeds `isReadOnly` from the safety module. -/
def isReadOnly (connectionReadOnly : Option Bool) (globalAllowMutations : Bool) : Bool :=
  match connectionReadOnly with
  | some b => b
  | none => !globalAllowMutations

/-! ### Reference lexer for the claims' source-level regions

The claims quantify over occurrences of keywords "inside a single-quoted
string literal, a double-quoted identifier, a block comment, or a line
comment".  The following lexer formalises that vocabulary: it tags every
character of the SQL text with the region it belongs to (delimiters
included), in one left-to-right pass. -/

inductive RegionTag where
  | code
  | lit
  | qid
  | bcom
  | lcom
  deriving DecidableEq, Repr

inductive LexState where
  | neutral
  | inLit
  | inQid
  | inBcom
  | inLcom
  deriving DecidableEq, Repr

/-- One tag per character; fuel is the input length, which always
suffices since every step consumes at least one character. -/
def tagAux : Nat → LexState → List Char → List RegionTag
  | 0, _, l => l.map fun _ => RegionTag.code
  | _ + 1, _, [] => []
  | fuel + 1, LexState.neutral, c :: rest =>
    match c, rest with
    | '\'', rest' => RegionTag.lit :: tagAux fuel LexState.inLit rest'
    | '"', rest' => RegionTag.qid :: tagAux fuel LexState.inQid rest'
    | '/', '*' :: rest' => RegionTag.bcom :: RegionTag.bcom :: tagAux fuel LexState.inBcom rest'
    | '-', '-' :: rest' => RegionTag.lcom :: RegionTag.lcom :: tagAux fuel LexState.inLcom rest'
    | _, rest' => RegionTag.code :: tagAux fuel LexState.neutral rest'
  | fuel + 1, LexState.inLit, c :: rest =>
    match c, rest with
    | '\\', _ :: rest' => RegionTag.lit :: RegionTag.lit :: tagAux fuel LexState.inLit rest'
    | '\'', rest' => RegionTag.lit :: tagAux fuel LexState.neutral rest'
    | _, rest' => RegionTag.lit :: tagAux fuel LexState.inLit rest'
  | fuel + 1, LexState.inQid, c :: rest =>
    match c, rest with
    | '\\', _ :: rest' => RegionTag.qid :: RegionTag.qid :: tagAux fuel LexState.inQid rest'
    | '"', rest' => RegionTag.qid :: tagAux fuel LexState.neutral rest'
    | _, rest' => RegionTag.qid :: tagAux fuel LexState.inQid rest'
  | fuel + 1, LexState.inBcom, c :: rest =>
    match c, rest with
    | '*', '/' :: rest' => RegionTag.bcom :: RegionTag.bcom :: tagAux fuel LexState.neutral rest'
    | _, rest' => RegionTag.bcom :: tagAux fuel LexState.inBcom rest'
  | fuel + 1, LexState.inLcom, c :: rest =>
    match c, rest with
    | '\n', rest' => RegionTag.code :: tagAux fuel LexState.neutral rest'
    | _, rest' => RegionTag.lcom :: tagAux fuel LexState.inLcom rest'

/-- Region tag of every character of `s`. -/
def charTags (s : String) : List RegionTag :=
  tagAux s.data.length LexState.neutral s.data

/-- The text contains `kw` (case-insensitively) as a whole word entirely
outside string literals, quoted identifiers and comments. -/
def keywordOutsideRegions (s : String) (kw : String) : Bool :=
  (List.range (s.data.length + 1)).any fun i =>
    occursAt (upperChars s.data) (upperChars kw.data) i
    && wordBoundaryBefore s.data i
    && wordBoundaryAfter s.data (i + kw.data.length)
    && (((charTags s).drop i).take kw.data.length).all (· == RegionTag.code)

/-- Every (case-insensitive, substring) occurrence of every mutation
keyword in the text lies entirely inside a string literal, quoted
identifier or comment. -/
def keywordOnlyInsideRegions (s : String) : Bool :=
  MUTATION_KEYWORDS.all fun kw =>
    (List.range (s.data.length + 1)).all fun i =>
      !(occursAt (upperChars s.data) (upperChars kw.data) i)
      || (((charTags s).drop i).take kw.data.length).all (· != RegionTag.code)

/-! ### Configuration (config module) -/

inductive DriverKind where
  | sqlite
  | postgres
  | mysql
  deriving DecidableEq, Repr

structure ConnectionConfig where
  driver : DriverKind
  path : Option String := none
  connectionString : Option String := none
  readOnly : Option Bool := none
  deriving DecidableEq, Repr

/-- The raw plugin configuration: every field optional.  `connections` is
a JS object, modelled as an association list in key insertion order. -/
structure RawConfig where
  connections : Option (List (String × ConnectionConfig)) := none
  defaultConnection : Option String := none
  maxRows : Option Nat := none
  queryTimeout : Option Nat := none
  allowMutations : Option Bool := none
  deriving Repr

structure DbQueryConfig where
  connections : List (String × ConnectionConfig)
  defaultConnection : String
  maxRows : Nat
  queryTimeout : Nat
  allowMutations : Bool
  deriving Repr

def DEFAULTS : DbQueryConfig :=
  { connections := []
    defaultConnection := ""
    maxRows := 1000
    queryTimeout := 30000
    allowMutations := false }

/-- Embeds `resolveConfig` from the config module.  When the raw config does not
name a default connection, the first configured connection's key (or the
empty string when none exist) is substituted; `maxRows` is clamped to
10000. -/
def resolveConfig : Option RawConfig → DbQueryConfig
  | none => DEFAULTS
  | some raw =>
    { connections := raw.connections.getD []
      defaultConnection :=
        raw.defaultConnection.getD ((((raw.connections.getD []).map Prod.fst).headD ""))
      maxRows := min (raw.maxRows.getD 1000) 10000
      queryTimeout := raw.queryTimeout.getD 30000
      allowMutations := raw.allowMutations.getD false }

/-! ### Gateway: connection-name resolution and driver registry (index module) -/

/-- Embeds `resolveConnectionName` from the index module.  A JS falsy check
guards the explicit name and the configured default (the empty string is
falsy), then the registry falls back on the connection list. -/
def resolveConnectionName (cfg : DbQueryConfig) (name : Option String) :
    Except String String :=
  if name.getD "" ≠ "" then Except.ok (name.getD "")
  else if cfg.defaultConnection ≠ "" then Except.ok cfg.defaultConnection
  else
    let keys := cfg.connections.map Prod.fst
    if keys.length = 1 then Except.ok (keys.headD "")
    else if keys.length = 0 then Except.error "No database connections configured."
    else
      Except.error ("Multiple connections available (" ++ String.intercalate ", " keys
        ++ "). Specify which one to use.")

/-- The effects `getDriver` relies on: `createDriver` (driver
construction, including the dynamic import of the backend library) and
`driver.connect()`, either of which may throw. -/
structure DriverEnv (δ : Type) where
  create : ConnectionConfig → Except String δ
  connect : δ → Except String Unit

/-- Embeds `getDriver` from the index module, with the mutable `drivers` map
passed explicitly (an association list in insertion order; `Map.set` on
a missing key appends).  Returns the call's result together with the
registry left behind. -/
def getDriver {δ : Type} (env : DriverEnv δ) (cfg : DbQueryConfig)
    (drivers : List (String × δ)) (connectionName : String) :
    Except String δ × List (String × δ) :=
  match drivers.lookup connectionName with
  | some existing => (Except.ok existing, drivers)
  | none =>
    match (cfg.connections.lookup connectionName) with
    | none =>
      if cfg.connections.length > 0 then
        (Except.error ("Connection \"" ++ connectionName ++ "\" not found. Available: "
          ++ String.intercalate ", " (cfg.connections.map Prod.fst)), drivers)
      else
        (Except.error "No database connections configured. Add connections to the db-query plugin config.", drivers)
    | some connCfg =>
      match env.create connCfg with
      | Except.error e => (Except.error e, drivers)
      | Except.ok driver =>
        match env.connect driver with
        | Except.error e => (Except.error e, drivers)
        | Except.ok _ => (Except.ok driver, drivers ++ [(connectionName, driver)])

/-! ### Backend drivers (query row-capping)

The backend engine is modelled by the full result set `source` of the
caller's statement: executing the statement bare yields `source`, and
executing it wrapped with `LIMIT n` yields `source.take n`. -/

def jsUpper (s : String) : String := ⟨upperChars s.data⟩

/-- Embeds `s.startsWith(pre)`. -/
def jsStartsWith (s pre : String) : Bool :=
  decide (s.data.take pre.data.length = pre.data)

/-- Embeds `s.includes(sub)`. -/
def jsIncludes (s sub : String) : Bool :=
  (List.range (s.data.length + 1)).any fun i => occursAt s.data sub.data i

structure QueryResult (α : Type) where
  rows : List α
  rowCount : Nat
  totalAvailable : Option Nat := none
  deriving DecidableEq, Repr

namespace SqliteDriver

def isReadStatement (upper : String) : Bool :=
  jsStartsWith upper "SELECT" || jsStartsWith upper "PRAGMA"
    || jsStartsWith upper "EXPLAIN" || jsStartsWith upper "WITH"

def injectsLimit (upper : String) : Bool :=
  jsStartsWith upper "SELECT" && !(jsIncludes upper "LIMIT")

/-- Embeds `SqliteDriver.query`: statements over 10000 characters throw
(`none`); a `SELECT` without the substring `LIMIT` is wrapped with
`LIMIT limit+1`; read statements return the fetched rows cut to `limit`,
with `totalAvailable` always ending up as the fetched row count; other
statements run for their change count. -/
def query {α : Type} (source : List α) (changes : Nat) (sql : String) (limit : Nat) :
    Option (QueryResult α) :=
  if sql.data.length > 10000 then none
  else
    let upper := jsUpper (jsTrim sql)
    if isReadStatement upper then
      let rows := if injectsLimit upper then source.take (limit + 1) else source
      let totalAvailable : Option Nat :=
        if rows.length > limit then none else some rows.length
      let limited := rows.take limit
      some { rows := limited, rowCount := limited.length,
             totalAvailable := if rows.length > limit then some rows.length else totalAvailable }
    else some { rows := [], rowCount := 0, totalAvailable := some changes }

end SqliteDriver

namespace MysqlDriver

/-- Embeds `MysqlDriver.query` for statements whose native result is a row
array: a `SELECT` or `WITH` statement is wrapped as
`SELECT * FROM (...) AS _q LIMIT limit`, so the server returns at most
`limit` rows; the result never carries `totalAvailable`. -/
def query {α : Type} (source : List α) (sql : String) (limit : Nat) : QueryResult α :=
  let upper := jsUpper (jsTrim sql)
  let fetched :=
    if jsStartsWith upper "SELECT" || jsStartsWith upper "WITH" then source.take limit
    else source
  { rows := fetched.take limit, rowCount := fetched.length, totalAvailable := none }

end MysqlDriver

namespace PostgresDriver

/-- Embeds `PostgresDriver.query` for statements whose native result is a row
array: a `SELECT` without the substring `LIMIT` gets `LIMIT limit`
appended, so the server returns at most `limit` rows; `result.rowCount`
(for a row-returning statement, the number of rows the server returned)
is reported as `totalAvailable`. -/
def query {α : Type} (source : List α) (sql : String) (limit : Nat) : QueryResult α :=
  let upper := jsUpper (jsTrim sql)
  let fetched :=
    if jsStartsWith upper "SELECT" && !(jsIncludes upper "LIMIT") then source.take limit
    else source
  { rows := fetched.take limit, rowCount := fetched.length,
    totalAvailable := some fetched.length }

end PostgresDriver

/-- The tool's effective limit: `Math.min(params.limit ?? 100, cfg.maxRows)`. -/
def effectiveLimit (requested : Option Nat) (maxRows : Nat) : Nat :=
  min (requested.getD 100) maxRows

/-- A `QueryOutcome` positively reports that more rows were available
than returned. -/
def indicatesTruncation {α : Type} (r : QueryResult α) : Bool :=
  match r.totalAvailable with
  | some n => decide (n > r.rows.length)
  | none => false

/-! ### Result formatter (format module) -/

def MAX_CELL_WIDTH : Nat := 200

/-- A native cell value as the formatter distinguishes them: JS
`null`/`undefined`, a binary buffer of `byteLength` bytes, a structured
object together with its `JSON.stringify` serialization (`objFail` when
serialization throws), or a primitive with its `String(value)` form. -/
inductive CellValue where
  | nullv
  | undef
  | blob (byteLength : Nat)
  | obj (serialization : String)
  | objFail
  | prim (str : String)
  deriving DecidableEq, Repr

/-- Embeds `sanitizeCell` from the format module. -/
def sanitizeCell : CellValue → String
  | CellValue.nullv => "NULL"
  | CellValue.undef => "NULL"
  | CellValue.blob n => "[BLOB " ++ toString n ++ " bytes]"
  | CellValue.obj j => j
  | CellValue.objFail => "[Object]"
  | CellValue.prim s =>
    if s.data.length > MAX_CELL_WIDTH then ⟨s.data.take (MAX_CELL_WIDTH - 3)⟩ ++ "..."
    else s

/-- A result row: a JS object, i.e. an association list of distinct keys
in insertion order. -/
abbrev Row : Type := List (String × CellValue)

/-- Embeds `row[c]`: a missing property reads as `undefined`. -/
def lookupCell (row : Row) (c : String) : CellValue :=
  (List.lookup c row).getD CellValue.undef

/-- Embeds `Array.prototype.join(sep)`. -/
def joinSep (sep : String) : List String → String
  | [] => ""
  | [a] => a
  | a :: b :: rest => a ++ sep ++ joinSep sep (b :: rest)

/-- Embeds `val.replace` of every `"` by `""`. -/
def escQuotes : List Char → List Char
  | [] => []
  | '"' :: rest => '"' :: '"' :: escQuotes rest
  | c :: rest => c :: escQuotes rest

/-- Embeds `csvEscape` from the format module. -/
def csvEscape (val : String) : String :=
  if val.data.contains ',' || val.data.contains '"' || val.data.contains '\n' then
    "\"" ++ String.mk (escQuotes val.data) ++ "\""
  else val

/-- The sanitized cells of one row under the given column list. -/
def rowCells (columns : List String) (row : Row) : List String :=
  columns.map fun c => sanitizeCell (lookupCell row c)

/-- Embeds `formatCsv` from the format module: columns are the keys of the
first row; every row contributes one line of escaped sanitized cells. -/
def formatCsv (rows : List Row) : String :=
  let columns := (rows.headD []).map Prod.fst
  joinSep "\n" (joinSep "," (columns.map csvEscape)
    :: rows.map fun row => joinSep "," ((rowCells columns row).map csvEscape))

/-- Embeds `s.padEnd(w)`. -/
def padEnd (s : String) (w : Nat) : String :=
  s ++ String.mk (List.replicate (w - s.data.length) ' ')

/-- One row's contribution to the column widths:
`min(max(width, cell.length), MAX_CELL_WIDTH)` per column. -/
def updWidths (ws : List Nat) (cells : List String) : List Nat :=
  List.zipWith (fun w c => min (max w c.data.length) MAX_CELL_WIDTH) ws cells

/-- The `(N rows)` caption. -/
def rowCountCaption (n : Nat) : String :=
  "\n(" ++ toString n ++ " row" ++ (if n = 1 then "" else "s") ++ ")"

/-- Embeds `formatTable` from the format module: columns are the keys of the
first row, widths grow over the rows (bounded by `MAX_CELL_WIDTH`), and
the caption reports truncation when `totalAvailable` exceeds the row
count. -/
def formatTable (rows : List Row) (totalAvailable : Option Nat) : String :=
  let names := (rows.headD []).map Prod.fst
  let widths := rows.foldl (fun ws row => updWidths ws (rowCells names row))
    (names.map fun n => n.data.length)
  let header := joinSep " | " (List.zipWith padEnd names widths)
  let sep := joinSep "─┼─" (widths.map fun w => String.mk (List.replicate w '─'))
  let body := rows.map fun row => joinSep " | " (List.zipWith padEnd (rowCells names row) widths)
  let caption :=
    match totalAvailable with
    | some n =>
      if n > rows.length then
        "\n(showing " ++ toString rows.length ++ " of " ++ toString n ++ " rows)"
      else rowCountCaption rows.length
    | none => rowCountCaption rows.length
  joinSep "\n" (header :: sep :: (body ++ [caption]))

/-! ### Concurrent first-use of one connection name

Operational model of two concurrent `getDriver` calls for the same
name, abstracted from the async structure of the source: a caller's
first step runs from entry up to the first `await` — the registry
lookup and, on a miss, the allocation of a fresh driver instance — and
its second step is the completion of `connect()`, which stores the
instance in the registry and returns it.  Driver instances are numbered
in allocation order, and a schedule lists which caller advances next. -/

namespace Race

inductive CallPhase where
  | start
  | connecting (d : Nat)
  | finished (d : Nat)
  deriving DecidableEq, Repr

structure RaceState where
  registry : Option Nat
  nextId : Nat
  created : Nat
  callerA : CallPhase
  callerB : CallPhase
  deriving DecidableEq, Repr

/-- Advance one caller by one step against the shared state. -/
def advance (s : RaceState) (p : CallPhase) : RaceState × CallPhase :=
  match p with
  | CallPhase.start =>
    match s.registry with
    | some d => (s, CallPhase.finished d)
    | none =>
      ({ s with nextId := s.nextId + 1, created := s.created + 1 },
        CallPhase.connecting s.nextId)
  | CallPhase.connecting d => ({ s with registry := some d }, CallPhase.finished d)
  | CallPhase.finished d => (s, CallPhase.finished d)

def step (s : RaceState) (who : Bool) : RaceState :=
  if who then
    let r := advance s s.callerA
    { r.1 with callerA := r.2 }
  else
    let r := advance s s.callerB
    { r.1 with callerB := r.2 }

def runSchedule (s : RaceState) : List Bool → RaceState
  | [] => s
  | w :: ws => runSchedule (step s w) ws

def initState : RaceState :=
  { registry := none, nextId := 0, created := 0,
    callerA := CallPhase.start, callerB := CallPhase.start }

end Race

/-- The keyword scan of `validateQuery` as a predicate on keywords. -/
def keywordHit (q : String) (kw : String) : Bool :=
  containsWordCI kw (stripLiteralsAndComments (jsTrim q))

/-- A raw configuration with two connections and no default named. -/
def twoConnRaw : RawConfig :=
  { connections := some [("a", { driver := DriverKind.sqlite }),
                         ("b", { driver := DriverKind.mysql })] }

/-- Environment in which driver construction succeeds but `connect`
always fails. -/
def failEnv : DriverEnv Nat :=
  { create := fun _ => Except.ok 7
    connect := fun _ => Except.error "connection refused" }

def oneConnCfg : DbQueryConfig :=
  { DEFAULTS with connections := [("a", { driver := DriverKind.sqlite })] }

/-! ## Claims about the query safety classifier -/

/-- C3: any SQL text that still contains a `;` after one trailing
terminator is stripped from its trimmed form is denied as
"multiple statements not allowed" under disabled mutations, whatever
keywords it contains — the keyword scan is never consulted. -/
theorem C3_multi_statement_denied (q : String)
    (h : jsIncludesChar (stripTrailingSemicolon (jsTrim q)) ';' = true) :
    validateQuery q false =
      { allowed := false, reason := some "multiple statements not allowed" } := by
  simp [validateQuery, h]

theorem C3_multi_statement_denied_witness :
    jsIncludesChar (stripTrailingSemicolon (jsTrim "SELECT 1; DROP TABLE x")) ';' = true ∧
    validateQuery "SELECT 1; DROP TABLE x" false =
      { allowed := false, reason := some "multiple statements not allowed" } :=
  ⟨by decide, C3_multi_statement_denied "SELECT 1; DROP TABLE x" (by decide)⟩

/-- C1 counterexample: in `SELECT x'a'DROP FROM t` the keyword `DROP`
occurs as a whole word entirely outside every string literal, quoted
identifier and comment (it is delimited by a closing quote and a space),
mutations are disabled, yet `validateQuery` returns Allowed: removing
the literal `'a'` glues `x` onto `DROP`, so the whole-word scan misses
it. -/
theorem C1_counterexample :
    keywordOutsideRegions "SELECT x'a'DROP FROM t" "DROP" = true ∧
    "DROP" ∈ MUTATION_KEYWORDS ∧
    validateQuery "SELECT x'a'DROP FROM t" false = { allowed := true, reason := none } := by
  exact ⟨by decide, by decide, by decide⟩

/-- C1 amended: whenever the *stripped* text (string literals, quoted
identifiers and comments removed) contains some mutation keyword as a
whole word, and the text has no statement separator beyond a single
trailing one, `validateQuery` with mutations disabled returns Denied
with a reason naming a mutation keyword that does occur as a whole word
in the stripped text. -/
theorem C1_amended_keyword_denied (q kw : String)
    (hmem : kw ∈ MUTATION_KEYWORDS)
    (hkw : keywordHit q kw = true)
    (hsemi : jsIncludesChar (stripTrailingSemicolon (jsTrim q)) ';' = false) :
    (validateQuery q false).allowed = false ∧
    ∃ hit, hit ∈ MUTATION_KEYWORDS ∧ keywordHit q hit = true ∧
      (validateQuery q false).reason = some (blockedMsg hit) := by
  have hex : (MUTATION_KEYWORDS.find? (keywordHit q)).isSome = true :=
    List.find?_isSome.mpr ⟨kw, hmem, hkw⟩
  cases hfind : MUTATION_KEYWORDS.find? (keywordHit q) with
  | none => rw [hfind] at hex; cases hex
  | some hit =>
    have hres : validateQuery q false =
        { allowed := false, reason := some (blockedMsg hit) } := by
      have hfind' : MUTATION_KEYWORDS.find?
          (fun kw => containsWordCI kw (stripLiteralsAndComments (jsTrim q))) = some hit := hfind
      simp [validateQuery, hsemi, hfind']
    exact ⟨by rw [hres], hit, List.mem_of_find?_eq_some hfind,
      List.find?_some hfind, by rw [hres]⟩

theorem C1_amended_keyword_denied_witness :
    ("DROP" ∈ MUTATION_KEYWORDS ∧
      keywordHit "DROP TABLE users" "DROP" = true ∧
      jsIncludesChar (stripTrailingSemicolon (jsTrim "DROP TABLE users")) ';' = false) ∧
    ((validateQuery "DROP TABLE users" false).allowed = false ∧
      ∃ hit, hit ∈ MUTATION_KEYWORDS ∧ keywordHit "DROP TABLE users" hit = true ∧
        (validateQuery "DROP TABLE users" false).reason = some (blockedMsg hit)) :=
  ⟨⟨by decide, by decide, by decide⟩,
    C1_amended_keyword_denied "DROP TABLE users" "DROP" (by decide) (by decide) (by decide)⟩

/-- C2 counterexample: in `SELECT 'a; DROP x'` the only occurrence of a
mutation keyword lies inside the single-quoted string literal, yet
`validateQuery` with mutations disabled returns Denied: the `;` inside
the literal trips the multi-statement check, which runs before literals
are stripped. -/
theorem C2_counterexample :
    keywordOnlyInsideRegions "SELECT 'a; DROP x'" = true ∧
    validateQuery "SELECT 'a; DROP x'" false =
      { allowed := false, reason := some "multiple statements not allowed" } := by
  exact ⟨by decide, by decide⟩

/-- C2 amended: if the text contains no statement separator beyond a
single trailing one, and after removing string literals, quoted
identifiers and comments no mutation keyword occurs as a whole word in
the remaining text, then `validateQuery` with mutations disabled
returns Allowed. -/
theorem C2_amended_clean_query_allowed (q : String)
    (hsemi : jsIncludesChar (stripTrailingSemicolon (jsTrim q)) ';' = false)
    (hkw : ∀ kw ∈ MUTATION_KEYWORDS, keywordHit q kw = false) :
    validateQuery q false = { allowed := true, reason := none } := by
  have hnone : MUTATION_KEYWORDS.find?
      (fun kw => containsWordCI kw (stripLiteralsAndComments (jsTrim q))) = none :=
    List.find?_eq_none.mpr fun kw hk => by
      have := hkw kw hk
      simp only [keywordHit] at this
      simp [this]
  simp [validateQuery, hsemi, hnone]

theorem C2_amended_clean_query_allowed_witness :
    (jsIncludesChar (stripTrailingSemicolon (jsTrim "SELECT 'DROP me a line' FROM t")) ';' = false ∧
      (∀ kw ∈ MUTATION_KEYWORDS, keywordHit "SELECT 'DROP me a line' FROM t" kw = false)) ∧
    validateQuery "SELECT 'DROP me a line' FROM t" false = { allowed := true, reason := none } :=
  ⟨⟨by decide, by decide⟩,
    C2_amended_clean_query_allowed "SELECT 'DROP me a line' FROM t" (by decide) (by decide)⟩

/-! ## Claims about row capping and truncation reporting -/

/-- Any successful sqlite query returns at most `limit` rows. -/
theorem sqlite_query_rows_le {α : Type} (source : List α) (changes : Nat)
    (sql : String) (limit : Nat) (r : QueryResult α)
    (h : SqliteDriver.query source changes sql limit = some r) :
    r.rows.length ≤ limit := by
  unfold SqliteDriver.query at h
  by_cases h1 : sql.data.length > 10000
  · rw [if_pos h1] at h
    exact Option.noConfusion h
  · rw [if_neg h1] at h
    by_cases h2 : SqliteDriver.isReadStatement (jsUpper (jsTrim sql)) = true
    · rw [if_pos h2] at h
      cases h
      exact List.length_take_le _ _
    · rw [if_neg h2] at h
      cases h
      simp

/-- On a read statement, the sqlite result's `totalAvailable` is the
fetched row count. -/
theorem sqlite_query_totalAvailable {α : Type} (source : List α) (changes : Nat)
    (sql : String) (limit : Nat) (r : QueryResult α)
    (h : SqliteDriver.query source changes sql limit = some r)
    (hread : SqliteDriver.isReadStatement (jsUpper (jsTrim sql)) = true) :
    r.totalAvailable = some ((if SqliteDriver.injectsLimit (jsUpper (jsTrim sql))
        then source.take (limit + 1) else source).length) ∧
    r.rows = (if SqliteDriver.injectsLimit (jsUpper (jsTrim sql))
        then source.take (limit + 1) else source).take limit := by
  unfold SqliteDriver.query at h
  by_cases h1 : sql.data.length > 10000
  · rw [if_pos h1] at h
    exact Option.noConfusion h
  · rw [if_neg h1, if_pos hread] at h
    cases h
    refine ⟨?_, rfl⟩
    by_cases h3 : (if SqliteDriver.injectsLimit (jsUpper (jsTrim sql))
        then source.take (limit + 1) else source).length > limit
    · simp [h3]
    · simp [h3]

/-- C4: the resolved configuration's row cap never exceeds 10000, and
with the tool's effective limit `min(requested, cap)` every driver's
query result holds at most `min(requested, cap)` rows. -/
theorem C4_row_cap (raw : Option RawConfig) (requested : Nat) {α : Type}
    (source : List α) (changes : Nat) (sql : String) :
    (resolveConfig raw).maxRows ≤ 10000 ∧
    (∀ r, SqliteDriver.query source changes sql
        (effectiveLimit (some requested) (resolveConfig raw).maxRows) = some r →
      r.rows.length ≤ min requested (resolveConfig raw).maxRows) ∧
    (MysqlDriver.query source sql
        (effectiveLimit (some requested) (resolveConfig raw).maxRows)).rows.length
      ≤ min requested (resolveConfig raw).maxRows ∧
    (PostgresDriver.query source sql
        (effectiveLimit (some requested) (resolveConfig raw).maxRows)).rows.length
      ≤ min requested (resolveConfig raw).maxRows := by
  have hlim : effectiveLimit (some requested) (resolveConfig raw).maxRows
      = min requested (resolveConfig raw).maxRows := rfl
  refine ⟨?_, ?_, ?_, ?_⟩
  · cases raw with
    | none => simp [resolveConfig, DEFAULTS]
    | some rc => simp [resolveConfig]
  · intro r hr
    exact hlim ▸ sqlite_query_rows_le source changes sql _ r hr
  · rw [hlim] at *
    simp [MysqlDriver.query]
  · rw [hlim] at *
    simp [PostgresDriver.query]

theorem C4_row_cap_witness :
    (resolveConfig (some { maxRows := some 50000 })).maxRows ≤ 10000 ∧
    ({ rows := [0, 1], rowCount := 2, totalAvailable := some 3 } : QueryResult Nat).rows.length
      ≤ min 2 (resolveConfig (some { maxRows := some 50000 })).maxRows :=
  ⟨(C4_row_cap (some { maxRows := some 50000 }) 2 ([0, 1, 2] : List Nat) 0 "SELECT * FROM t").1,
   (C4_row_cap (some { maxRows := some 50000 }) 2 ([0, 1, 2] : List Nat) 0 "SELECT * FROM t").2.1
     { rows := [0, 1], rowCount := 2, totalAvailable := some 3 } (by decide)⟩

/-- C5 counterexample: the mysql driver wraps `SELECT * FROM t` with
`LIMIT 1`, the server returns one of the three source rows, and the
outcome carries no `totalAvailable` at all — truncation occurred but the
outcome does not indicate it. -/
theorem C5_counterexample :
    (MysqlDriver.query ([0, 1, 2] : List Nat) "SELECT * FROM t" 1).rows.length = 1 ∧
    ([0, 1, 2] : List Nat).length
      > (MysqlDriver.query ([0, 1, 2] : List Nat) "SELECT * FROM t" 1).rows.length ∧
    (MysqlDriver.query ([0, 1, 2] : List Nat) "SELECT * FROM t" 1).totalAvailable = none ∧
    indicatesTruncation (MysqlDriver.query ([0, 1, 2] : List Nat) "SELECT * FROM t" 1) = false := by
  exact ⟨by decide, by decide, by decide, by decide⟩

/-- C5 amended: for the sqlite driver, every read query whose source has
more rows than were returned yields an outcome that indicates
truncation (`totalAvailable` strictly above the returned row count);
the mysql driver instead never sets `totalAvailable`, so it never
wrongly claims a total, but it does not indicate truncation either. -/
theorem C5_amended_truncation_flag {α : Type} (source : List α) (changes : Nat)
    (sql : String) (limit : Nat) (r : QueryResult α)
    (h : SqliteDriver.query source changes sql limit = some r)
    (hread : SqliteDriver.isReadStatement (jsUpper (jsTrim sql)) = true)
    (hmore : r.rows.length < source.length) :
    indicatesTruncation r = true ∧
    (MysqlDriver.query source sql limit).totalAvailable = none := by
  refine ⟨?_, rfl⟩
  obtain ⟨hta, hrows⟩ := sqlite_query_totalAvailable source changes sql limit r h hread
  by_cases hinj : SqliteDriver.injectsLimit (jsUpper (jsTrim sql)) = true
  · rw [if_pos hinj] at hta hrows
    rw [hrows] at hmore
    simp only [indicatesTruncation, hta, hrows, List.length_take, decide_eq_true_eq]
    simp only [List.length_take] at hmore
    omega
  · rw [if_neg hinj] at hta hrows
    rw [hrows] at hmore
    simp only [indicatesTruncation, hta, hrows, List.length_take, decide_eq_true_eq]
    simp only [List.length_take] at hmore
    omega

theorem C5_amended_truncation_flag_witness :
    (SqliteDriver.query ([0, 1, 2] : List Nat) 0 "SELECT * FROM t" 1
        = some { rows := [0], rowCount := 1, totalAvailable := some 2 } ∧
      SqliteDriver.isReadStatement (jsUpper (jsTrim "SELECT * FROM t")) = true ∧
      ({ rows := [0], rowCount := 1, totalAvailable := some 2 } : QueryResult Nat).rows.length
        < ([0, 1, 2] : List Nat).length) ∧
    (indicatesTruncation ({ rows := [0], rowCount := 1, totalAvailable := some 2 } : QueryResult Nat) = true ∧
      (MysqlDriver.query ([0, 1, 2] : List Nat) "SELECT * FROM t" 1).totalAvailable = none) :=
  ⟨⟨by decide, by decide, by decide⟩,
    C5_amended_truncation_flag ([0, 1, 2] : List Nat) 0 "SELECT * FROM t" 1
      { rows := [0], rowCount := 1, totalAvailable := some 2 } (by decide) (by decide) (by decide)⟩

/-! ## Claims about the connection registry -/

/-- C6 counterexample: with two configured connections and no default
connection name in the raw config, a request that omits the connection
name resolves to the first configured connection `a` instead of failing
with an ambiguity error — `resolveConfig` silently pre-sets the default
to the first key. -/
theorem C6_counterexample :
    twoConnRaw.defaultConnection = none ∧
    (twoConnRaw.connections.getD []).length = 2 ∧
    resolveConnectionName (resolveConfig (some twoConnRaw)) none = Except.ok "a" := by
  exact ⟨rfl, rfl, rfl⟩

/-- C6 amended: the fallback described by the claim only operates when
the *effective* default connection name is empty — then a single
configured connection is chosen and several yield an ambiguity error —
but whenever the raw config omits the default and names at least one
connection, `resolveConfig` pre-sets the default to the first configured
key, which is then silently used. -/
theorem C6_amended_default_resolution (cfg : DbQueryConfig)
    (hd : cfg.defaultConnection = "") :
    (∀ k c, cfg.connections = [(k, c)] → resolveConnectionName cfg none = Except.ok k) ∧
    (1 < cfg.connections.length → ∃ msg, resolveConnectionName cfg none = Except.error msg) ∧
    (∀ raw : RawConfig, raw.defaultConnection = none →
      (resolveConfig (some raw)).defaultConnection
        = ((raw.connections.getD []).map Prod.fst).headD "") := by
  refine ⟨?_, ?_, ?_⟩
  · intro k c hconns
    simp [resolveConnectionName, hd, hconns]
  · intro hlen
    have h1 : ¬ (cfg.connections.map Prod.fst).length = 1 := by
      simp only [List.length_map]; omega
    have h0 : ¬ (cfg.connections.map Prod.fst).length = 0 := by
      simp only [List.length_map]; omega
    have hne1 : ¬ cfg.connections.length = 1 := by omega
    have hne0 : ¬ cfg.connections = [] := by
      intro hnil
      rw [hnil] at hlen
      simp at hlen
    refine ⟨"Multiple connections available ("
      ++ String.intercalate ", " (cfg.connections.map Prod.fst)
      ++ "). Specify which one to use.", ?_⟩
    simp [resolveConnectionName, hd, h1, h0, hne1, hne0]
  · intro raw hraw
    simp [resolveConfig, hraw]

theorem C6_amended_default_resolution_witness :
    resolveConnectionName
      { DEFAULTS with connections := [("solo", { driver := DriverKind.sqlite })] } none
      = Except.ok "solo" :=
  (C6_amended_default_resolution
    { DEFAULTS with connections := [("solo", { driver := DriverKind.sqlite })] } rfl).1
    "solo" { driver := DriverKind.sqlite } rfl

/-- C7: when `getDriver` returns an error — an unknown name, a failing
`createDriver`, or a failing `connect` — the driver registry is left
exactly as it was: no entry is cached for the requested name, and a
subsequent call for the same name runs the whole attempt again. -/
theorem C7_failed_attempt_not_cached {δ : Type} (env : DriverEnv δ)
    (cfg : DbQueryConfig) (drivers : List (String × δ)) (name : String) (e : String)
    (h : (getDriver env cfg drivers name).1 = Except.error e) :
    (getDriver env cfg drivers name).2 = drivers ∧
    getDriver env cfg (getDriver env cfg drivers name).2 name
      = getDriver env cfg drivers name := by
  have hreg : (getDriver env cfg drivers name).2 = drivers := by
    cases hl : drivers.lookup name with
    | some d => simp [getDriver, hl] at h
    | none =>
      cases hc : cfg.connections.lookup name with
      | none =>
        simp only [getDriver, hl, hc]
        split <;> rfl
      | some connCfg =>
        cases he : env.create connCfg with
        | error err => simp [getDriver, hl, hc, he]
        | ok d =>
          cases hco : env.connect d with
          | error err => simp [getDriver, hl, hc, he, hco]
          | ok u => simp [getDriver, hl, hc, he, hco] at h
  exact ⟨hreg, by rw [hreg]⟩

theorem C7_failed_attempt_not_cached_witness :
    (getDriver failEnv oneConnCfg [] "a").1 = Except.error "connection refused" ∧
    ((getDriver failEnv oneConnCfg [] "a").2 = [] ∧
      getDriver failEnv oneConnCfg (getDriver failEnv oneConnCfg [] "a").2 "a"
        = getDriver failEnv oneConnCfg [] "a") :=
  ⟨rfl, C7_failed_attempt_not_cached failEnv oneConnCfg [] "a" "connection refused" rfl⟩

/-- C8, at the racy schedule: both callers run the registry lookup
before either completes `connect` (schedule A, B, A, B).  Two driver
instances are created and connected, caller A finishes with instance 0
while caller B finishes with instance 1, and the registry retains only
the last instance stored — refuting single-flight creation. -/
theorem C8_concurrent_first_use_races :
    (Race.runSchedule Race.initState [true, false, true, false]).created = 2 ∧
    (Race.runSchedule Race.initState [true, false, true, false]).callerA
      = Race.CallPhase.finished 0 ∧
    (Race.runSchedule Race.initState [true, false, true, false]).callerB
      = Race.CallPhase.finished 1 ∧
    (Race.runSchedule Race.initState [true, false, true, false]).registry = some 1 := by
  exact ⟨rfl, rfl, rfl, rfl⟩

/-! ## Claims about the result formatter -/

set_option maxRecDepth 4000 in
/-- C9 counterexample: a structured cell whose JSON serialization is 201
characters long is rendered as that 201-character serialization
unchanged — longer than the maximum width, no ellipsis marker — because
the object branch of `sanitizeCell` returns before the length check. -/
theorem C9_counterexample :
    MAX_CELL_WIDTH
      < (sanitizeCell (CellValue.obj (String.mk (List.replicate 201 'x')))).data.length ∧
    sanitizeCell (CellValue.obj (String.mk (List.replicate 201 'x')))
      = String.mk (List.replicate 201 'x') := by
  constructor
  · show MAX_CELL_WIDTH < (List.replicate 201 'x').length
    simp [MAX_CELL_WIDTH]
  · rfl

/-- C9 amended: for a primitive cell value — one rendered through its
`String(value)` form — a string form exceeding the 200-character maximum
is rendered as exactly 200 characters ending in the `...` marker, and
one at or under the maximum is reproduced exactly; a structured value's
serialization bypasses the cap. -/
theorem C9_cell_width (s : String) :
    (s.data.length > MAX_CELL_WIDTH →
      (sanitizeCell (CellValue.prim s)).data.length = MAX_CELL_WIDTH ∧
      "...".data <:+ (sanitizeCell (CellValue.prim s)).data) ∧
    (s.data.length ≤ MAX_CELL_WIDTH → sanitizeCell (CellValue.prim s) = s) := by
  constructor
  · intro h
    have hx : (sanitizeCell (CellValue.prim s)).data
        = s.data.take (MAX_CELL_WIDTH - 3) ++ "...".data := by
      simp only [sanitizeCell]
      rw [if_pos h]
      exact String.data_append _ _
    constructor
    · rw [hx]
      simp only [List.length_append, List.length_take]
      have h3 : ("...".data).length = 3 := rfl
      rw [h3]
      simp only [MAX_CELL_WIDTH] at h ⊢
      omega
    · rw [hx]
      exact List.suffix_append _ _
  · intro h
    simp only [sanitizeCell]
    rw [if_neg (by omega)]

set_option maxRecDepth 4000 in
theorem C9_cell_width_witness :
    ((sanitizeCell (CellValue.prim (String.mk (List.replicate 201 'a')))).data.length
        = MAX_CELL_WIDTH ∧
      "...".data <:+ (sanitizeCell (CellValue.prim (String.mk (List.replicate 201 'a')))).data) ∧
    sanitizeCell (CellValue.prim "ok") = "ok" :=
  ⟨(C9_cell_width (String.mk (List.replicate 201 'a'))).1
      (by show (List.replicate 201 'a').length > 200; simp),
   (C9_cell_width "ok").2 (by decide)⟩

/-- Appending a binding for a fresh key to a row leaves every lookup of
an existing column unchanged. -/
theorem lookup_append_fresh {β : Type} (r : List (String × β)) (k c : String) (v : β)
    (hne : ¬ c = k) : List.lookup c (r ++ [(k, v)]) = List.lookup c r := by
  rw [List.lookup_append]
  have hnone : List.lookup c [(k, v)] = none := by
    have hb : (c == k) = false := by simp [hne]
    simp [List.lookup_cons, hb]
  rw [hnone, Option.or_none]

/-- Appending a binding for a key outside the column list leaves the
sanitized cells of a row unchanged. -/
theorem rowCells_append_fresh (columns : List String) (r : Row) (k : String) (v : CellValue)
    (hk : k ∉ columns) : rowCells columns (r ++ [(k, v)]) = rowCells columns r :=
  List.map_congr_left fun c hc => by
    have hne : ¬ c = k := fun hck => hk (hck ▸ hc)
    simp [lookupCell, lookup_append_fresh r k c v hne]

/-- C10: the CSV output opens with exactly the first row's keys as its
header, and appending a binding for a key absent from the first row (and
from the row itself) to any later row leaves both the CSV and the table
output unchanged: such a key produces no column and its value is
silently dropped. -/
theorem C10_columns_from_first_row (r0 r : Row) (pre post : List Row)
    (ta : Option Nat) (k : String) (v : CellValue)
    (hk0 : k ∉ r0.map Prod.fst) (_hkr : k ∉ r.map Prod.fst) :
    (∃ rest, formatCsv (r0 :: (pre ++ r :: post))
        = joinSep "," ((r0.map Prod.fst).map csvEscape) ++ rest) ∧
    formatCsv (r0 :: (pre ++ (r ++ [(k, v)]) :: post))
      = formatCsv (r0 :: (pre ++ r :: post)) ∧
    formatTable (r0 :: (pre ++ (r ++ [(k, v)]) :: post)) ta
      = formatTable (r0 :: (pre ++ r :: post)) ta := by
  have hrc := rowCells_append_fresh (r0.map Prod.fst) r k v hk0
  refine ⟨?_, ?_, ?_⟩
  · refine ⟨"\n" ++ joinSep "\n" ((r0 :: (pre ++ r :: post)).map fun row =>
      joinSep "," ((rowCells (r0.map Prod.fst) row).map csvEscape)), ?_⟩
    simp only [formatCsv, List.headD_cons, List.map_cons]
    rw [joinSep, String.append_assoc]
  · simp only [formatCsv, List.headD_cons, List.map_cons, List.map_append, hrc]
  · have hfold :
        List.foldl (fun ws row => updWidths ws (rowCells (List.map Prod.fst r0) row))
          (List.map (fun n => n.data.length) (List.map Prod.fst r0))
          (r0 :: (pre ++ (r ++ [(k, v)]) :: post))
        = List.foldl (fun ws row => updWidths ws (rowCells (List.map Prod.fst r0) row))
          (List.map (fun n => n.data.length) (List.map Prod.fst r0))
          (r0 :: (pre ++ r :: post)) := by
      rw [← List.foldl_map (rowCells (List.map Prod.fst r0)) updWidths,
        ← List.foldl_map (rowCells (List.map Prod.fst r0)) updWidths]
      simp only [List.map_cons, List.map_append, hrc]
    simp only [formatTable, List.headD_cons, List.map_cons, List.map_append, hrc,
      List.length_cons, List.length_append, hfold]

theorem C10_columns_from_first_row_witness :
    ("b" ∉ ([("a", CellValue.prim "1")] : Row).map Prod.fst ∧
      "b" ∉ ([("a", CellValue.prim "2")] : Row).map Prod.fst) ∧
    formatCsv [[("a", CellValue.prim "1")], [("a", CellValue.prim "2"), ("b", CellValue.prim "9")]]
      = formatCsv [[("a", CellValue.prim "1")], [("a", CellValue.prim "2")]] :=
  ⟨⟨by decide, by decide⟩,
    (C10_columns_from_first_row [("a", CellValue.prim "1")] [("a", CellValue.prim "2")]
      [] [] none "b" (CellValue.prim "9") (by decide) (by decide)).2.1⟩

end DbQuery
